import Mathlib

/-!
Verification development for the configuration-initialization component
(`pkg/component/config/config.go` of `oprekable/gooprek`).

The Go code is shallowly embedded: the process environment is an
association list of key/value pairs, the mutable process-default time
location and the viper key-value store are threaded explicitly, and the
external collaborators (standard library `os`/`time` calls, the embedded
and on-disk file systems, the config-fragment parser, `viper.Unmarshal`
and `defaults.Set`) are modelled as an oracle structure `W` whose fields
record exactly the results the real calls would return during one run.
All functions mirror the Go source line by line.
-/

set_option autoImplicit false

namespace GooprekConfig

/-- An environment / key-value store: an association list.  Lookup finds the
first matching key, so prepending a pair shadows older bindings. -/
abbrev KV := List (String × String)

/-- First-match association-list lookup (decidable-equality variant of
`List.lookup`). -/
def kvLookup : KV → String → Option String
  | [], _ => none
  | (k', v) :: rest, k => if k' = k then some v else kvLookup rest k

/-- Replace the binding of `k` with `v`, or append it; mirrors `os.Setenv`. -/
def kvInsert : KV → String → String → KV
  | [], k, v => [(k, v)]
  | (k', v') :: rest, k, v =>
      if k' = k then (k, v) :: rest else (k', v') :: kvInsert rest k v

/-- `os.Getenv`: the bound value, or the empty string when unset. -/
def getenvD (env : KV) (k : String) : String :=
  (kvLookup env k).getD ""

/-- The Go constant `TZ`. -/
def TZName : String := "TZ"

/-- The Go constant `PathRegularParamsEnv = "/params/.env"`. -/
def PathRegularParamsEnv : String := "/params/.env"

/-- The Go constant `PathEmbedsParams = "embeds/params/"`. -/
def PathEmbedsParams : String := "embeds/params/"

/-- The Go constant `PathRegularParams = "/params/"`. -/
def PathRegularParams : String := "/params/"

/-- Modelled from the spec: `NewConfig` appends a constant
`PathEmbedsParamsFiles` (a fixed glob pattern pointing at the embedded
params directory) to the caller's pattern list; the constant's declaration
is not part of the provided source file, only its use site is.  Its exact
string value is immaterial to every claim. -/
def PathEmbedsParamsFiles : String := "embeds/params/*"

/-- Modelled from the spec: `NewConfig` appends `workDirPath ++
PathRegularParamsFiles` (a fixed glob pattern under the working directory)
to the caller's pattern list; the constant's declaration is not part of
the provided source file.  Its exact string value is immaterial to every
claim. -/
def PathRegularParamsFiles : String := "/params/*"

/-- Oracle for one run: the results every external collaborator call would
return.  Time locations are abstract tokens (`Nat`). -/
structure W where
  /-- whether `os.Setenv` succeeds -/
  setenvOk : Bool
  /-- the error message `os.Setenv` returns when it fails -/
  setenvErrMsg : String
  /-- `time.Now().Zone()` before any location override: (name, offset seconds) -/
  nowZone : String × Int
  /-- `time.LoadLocation name`: `none` means the load fails -/
  loadLocation : String → Option Nat
  /-- `time.Now().In(loc).Zone()`: (name, offset seconds) observed in `loc` -/
  zoneInNow : Nat → String × Int
  /-- `os.UserHomeDir()` result (its error is ignored by the code) -/
  homeDir : String
  /-- `os.Executable()`: `none` means it returns an error -/
  exePath : Option String
  /-- `filepath.Dir` -/
  filepathDir : String → String
  /-- `fs.Glob` on the embedded FS: `none` means the glob errors -/
  embedGlob : String → Option (List String)
  /-- `ReadFile` on the embedded FS: `none` means the read errors -/
  embedRead : String → Option String
  /-- the parsed embedded env file `embeds/envs/.env`; `none`: missing/corrupt -/
  embedEnvFile : Option KV
  /-- the error message `godotenvFS.Load` returns when it fails -/
  embedEnvErrMsg : String
  /-- `afero.Glob` on the on-disk FS: `none` means the glob errors -/
  diskGlob : String → Option (List String)
  /-- `afs.Stat`: whether stat of the given path succeeds -/
  diskStat : String → Bool
  /-- the parsed on-disk override env file; `none`: read/parse fails -/
  diskEnvFile : Option KV
  /-- file read on the on-disk FS: `none` means the read errors -/
  diskRead : String → Option String
  /-- parsing a config fragment in the configured format: `none` on parse error -/
  parse : String → Option KV
  /-- `viper.Unmarshal` of the accumulated store into the destination:
  `some msg` when binding fails (type mismatch), `none` on success -/
  unmarshalErr : KV → Option String
  /-- the result of `defaults.Set` on the destination -/
  defaultsErrMsg : Option String

/-- Result of `initTimeZone`: the four return values plus the environment
and process-default location after the call. -/
structure TZOut where
  tz : String
  loc : Option Nat
  offset : Int
  err : Option String
  envOut : KV
  localOut : Nat
deriving DecidableEq

/-- The tail of `initTimeZone` after the `TZ` variable has been resolved to
the working zone name `tzname` (with `env1` the environment at that point
and `local0` the current `time.Local`): capture `time.Now().Zone()`, try
`time.LoadLocation(os.Getenv(TZ))`, fall back on failure, reconcile on
success. -/
def tzCore (o : W) (env1 : KV) (local0 : Nat) (tzname : String) : TZOut :=
  let base := o.nowZone
  match o.loadLocation (getenvD env1 TZName) with
  | none =>
      { tz := base.1, loc := some local0, offset := base.2, err := none,
        envOut := env1, localOut := local0 }
  | some l =>
      let lz := o.zoneInNow l
      if base.2 ≠ lz.2 then
        { tz := lz.1, loc := some l, offset := lz.2, err := none,
          envOut := env1, localOut := l }
      else
        { tz := tzname, loc := some l, offset := base.2, err := none,
          envOut := env1, localOut := local0 }

/-- Embedding of Go `initTimeZone`: read `TZ`; if empty, set it to the
requested zone (failing with the setenv error if the write fails); then run
the capture/load/reconcile tail. -/
def initTimeZone (o : W) (env : KV) (local0 : Nat) (tzArgs : String) : TZOut :=
  let tz0 := getenvD env TZName
  if tz0 = "" then
    if o.setenvOk then
      tzCore o (kvInsert env TZName tzArgs) local0 tzArgs
    else
      { tz := tz0, loc := none, offset := 0, err := some o.setenvErrMsg,
        envOut := env, localOut := local0 }
  else
    tzCore o env local0 tz0

/-- Embedding of Go `initWorkDirPath`: home directory, overridden by the
executable's directory when `os.Executable` succeeds; total, no error. -/
def initWorkDirPath (o : W) : String :=
  match o.exePath with
  | some ex => o.filepathDir ex
  | none => o.homeDir

/-- `viper.MergeConfig` / `MergeInConfig`: merge a parsed fragment into the
store; every key of the fragment overwrites the store's binding, and within
the fragment a later binding for a key wins.  Prepending in `foldl` order
puts later pairs in front, so first-match lookup realizes both rules. -/
def mergeLayer (st : KV) (layer : KV) : KV :=
  layer.foldl (fun s p => p :: s) st

/-- The binding the whole fragment list contributes for `k`: its last
occurrence, if any. -/
def lookupLast (layer : KV) (k : String) : Option String :=
  kvLookup layer.reverse k

/-- Per-character effect of viper's upper-casing combined with the
`.`-to-`_` `SetEnvKeyReplacer` (`'.'.toUpper = '.'`, so the order of the
two passes does not matter). -/
def normChar (c : Char) : Char :=
  if c = '.' then '_' else c.toUpper

/-- The environment-variable name viper consults for key `k` under
application name `appName`: the app-name (`SetEnvPrefix` of the
upper-cased name, prepended with `_` when non-empty) joined with the key,
upper-cased, with `.` mapped to `_`. -/
def envKeyName (appName k : String) : String :=
  let base := if appName = "" then k else appName ++ "_" ++ k
  String.mk (base.data.map normChar)

/-- The value `viper.Unmarshal` binds for key `k` with `AutomaticEnv`: a
set, non-empty matching environment variable wins (viper's default
`AllowEmptyEnv=false` treats an empty value as unset); otherwise the
accumulated store's binding. -/
def boundValue (env : KV) (appName : String) (st : KV) (k : String) :
    Option String :=
  let ev := getenvD env (envKeyName appName k)
  if ev = "" then kvLookup st k else some ev

/-- Inner loop of `fromFS` over one pattern's glob matches: read each file
(read errors skipped), merge its parsed content (`viper.MergeConfig`'s
error is discarded by the source, so parse failures are skipped too). -/
def fromFSMatches (o : W) (ms : List String) (st : KV) : KV :=
  ms.foldl
    (fun s2 m =>
      match o.embedRead m with
      | none => s2
      | some data =>
        match o.parse data with
        | none => s2
        | some kvs => mergeLayer s2 kvs)
    st

/-- Store accumulation of Go `fromFS`: for each pattern, glob the embedded
FS (glob errors skip the pattern) and merge every match. -/
def fromFSStore (o : W) (patterns : List String) (st : KV) : KV :=
  patterns.foldl
    (fun s pat =>
      match o.embedGlob pat with
      | none => s
      | some ms => fromFSMatches o ms s)
    st

/-- Embedding of Go `fromFS`: accumulate the store, then return it together
with the result of the terminal `viper.Unmarshal` — the only error the
function can return. -/
def fromFS (o : W) (patterns : List String) (st : KV) : KV × Option String :=
  let st2 := fromFSStore o patterns st
  (st2, o.unmarshalErr st2)

/-- Inner loop of `fromFiles` over one pattern's glob matches: files whose
`Stat` fails are skipped, otherwise the file is read and parsed
(`viper.MergeInConfig`'s error is discarded by the source). -/
def fromFilesMatches (o : W) (ms : List String) (st : KV) : KV :=
  ms.foldl
    (fun s2 m =>
      if o.diskStat m then
        match o.diskRead m with
        | none => s2
        | some data =>
          match o.parse data with
          | none => s2
          | some kvs => mergeLayer s2 kvs
      else s2)
    st

/-- Store accumulation of Go `fromFiles`: for each pattern, glob the
on-disk FS (glob errors skip the pattern) and merge every statted match. -/
def fromFilesStore (o : W) (patterns : List String) (st : KV) : KV :=
  patterns.foldl
    (fun s pat =>
      match o.diskGlob pat with
      | none => s
      | some ms => fromFilesMatches o ms s)
    st

/-- Embedding of Go `fromFiles`: accumulate the store, then return it with
the terminal `viper.Unmarshal` result. -/
def fromFiles (o : W) (patterns : List String) (st : KV) :
    KV × Option String :=
  let st2 := fromFilesStore o patterns st
  (st2, o.unmarshalErr st2)

/-- `godotenv` embedded load: each key of the file is applied only when not
already present in the environment (non-destructive). -/
def loadNonDestructive (env : KV) (kvs : KV) : KV :=
  kvs.foldl (fun e p => if (kvLookup e p.1).isSome then e else p :: e) env

/-- `godotenv.Overload`: every key of the file overwrites the environment
unconditionally. -/
def overloadEnv (env : KV) (kvs : KV) : KV :=
  kvs.foldl (fun e p => p :: e) env

/-- Embedding of the Go `Config` struct; `Data` holds an abstract reference
token to the caller-supplied destination.  Zero value: `none`/`""`/`0`. -/
structure Config where
  Data : Option Nat
  timeLocation : Option Nat
  appName : String
  workDirPath : String
  timeZone : String
  timeOffset : Int
deriving DecidableEq

/-- The zero `Config` allocated by `rd = &Config{}`. -/
def Config.zero : Config :=
  { Data := none, timeLocation := none, appName := "", workDirPath := "",
    timeZone := "", timeOffset := 0 }

/-- The mutable state threaded through the waterfall: process environment,
process-default time location, the global viper store, the `rd` handle
under construction, and the `InitTZStruct` value passed from the first
step to the second. -/
structure MState where
  env : KV
  localLoc : Nat
  store : KV
  rd : Config
  tzData : Option (String × Option Nat × Int)
deriving DecidableEq

/-- One waterfall step: returns the state after its effects and an optional
error.  Effects performed before a step's error persist (Go mutates `rd`
and globals through pointers). -/
abbrev Step := MState → MState × Option String

/-- `hunch.Waterfall` over an uncancelled context: run the steps in order,
stopping at — and returning unchanged — the first error. -/
def waterfall : List Step → MState → MState × Option String
  | [], s => (s, none)
  | f :: fs, s =>
    match f s with
    | (s2, some e) => (s2, some e)
    | (s2, none) => waterfall fs s2

/-- Waterfall step 1: `initTimeZone`, carrying its outputs forward in
`tzData` on success. -/
def initTZStep (o : W) (tzArgs : String) : Step := fun s =>
  let out := initTimeZone o s.env s.localLoc tzArgs
  match out.err with
  | some e => ({ s with env := out.envOut, localLoc := out.localOut }, some e)
  | none =>
    ({ s with
        env := out.envOut
        localLoc := out.localOut
        tzData := some (out.tz, out.loc, out.offset) }, none)

/-- Waterfall step 2: record workdir/timezone fields on `rd`, then load the
embedded env file `embeds/envs/.env` non-destructively; a missing or
corrupt embedded file is this step's (fatal) error, raised after the `rd`
fields were already written. -/
def embedEnvStep (o : W) : Step := fun s =>
  let wd := initWorkDirPath o
  let t := s.tzData.getD ("", none, 0)
  let rd2 := { s.rd with
                workDirPath := wd
                timeZone := t.1
                timeLocation := t.2.1
                timeOffset := t.2.2 }
  match o.embedEnvFile with
  | none => ({ s with rd := rd2 }, some o.embedEnvErrMsg)
  | some kvs =>
    ({ s with rd := rd2, env := loadNonDestructive s.env kvs }, none)

/-- Waterfall step 3: if `Stat(workDirPath ++ "/params/.env")` succeeds,
`godotenv.Overload` it, discarding its error; the step itself always
returns `nil`. -/
def regularEnvStep (o : W) : Step := fun s =>
  if o.diskStat (s.rd.workDirPath ++ PathRegularParamsEnv) then
    match o.diskEnvFile with
    | some kvs => ({ s with env := overloadEnv s.env kvs }, none)
    | none => (s, none)
  else (s, none)

/-- Waterfall step 4: merge the embedded config fragments
(`fromFS` over `configPaths ++ [PathEmbedsParamsFiles]`). -/
def embedCfgStep (o : W) (configPaths : List String) : Step := fun s =>
  let r := fromFS o (configPaths ++ [PathEmbedsParamsFiles]) s.store
  ({ s with store := r.1 }, r.2)

/-- Waterfall step 5: merge the on-disk config fragments (`fromFiles` over
`configPaths ++ [workDirPath ++ PathRegularParamsFiles]`). -/
def diskCfgStep (o : W) (configPaths : List String) : Step := fun s =>
  let r := fromFiles o
    (configPaths ++ [s.rd.workDirPath ++ PathRegularParamsFiles]) s.store
  ({ s with store := r.1 }, r.2)

/-- Waterfall step 6: `defaults.Set` on the destination. -/
def defaultsStep (o : W) : Step := fun s => (s, o.defaultsErrMsg)

/-- The fixed step list of `NewConfig`, in source order. -/
def stepList (o : W) (configPaths : List String) (tzArgs : String) :
    List Step :=
  [initTZStep o tzArgs, embedEnvStep o, regularEnvStep o,
   embedCfgStep o configPaths, diskCfgStep o configPaths, defaultsStep o]

/-- The state at entry of `NewConfig`: the ambient environment and default
location, an empty global viper store, a zero `rd`. -/
def initState (env0 : KV) (local0 : Nat) : MState :=
  { env := env0, localLoc := local0, store := [], rd := Config.zero,
    tzData := none }

/-- Embedding of Go `NewConfig`: run the waterfall, then — on success and
on error alike — set `rd.Data` to the destination reference and
`rd.appName`, and return the handle with the waterfall's error. -/
def newConfigRun (o : W) (env0 : KV) (local0 : Nat)
    (configPaths : List String) (appName tzArgs : String) (destRef : Nat) :
    Config × Option String :=
  let r := waterfall (stepList o configPaths tzArgs) (initState env0 local0)
  ({ r.1.rd with Data := some destRef, appName := appName }, r.2)

/-- `defaults.Set` on one destination field: a field still unset after the
merge receives its declared default, a set field is kept. -/
def defaultsSetField (cur : Option String) (dflt : String) : String :=
  cur.getD dflt

/-- The value a destination field with key `k` and declared default `dflt`
holds after the full pipeline: the merged binding when any layer
contributed one, the declared default otherwise. -/
def finalFieldValue (env : KV) (appName : String) (st : KV)
    (k dflt : String) : String :=
  defaultsSetField (boundValue env appName st k) dflt

/-- Left-biased choice on optional values (the value a later layer
contributes, falling back to the older store). -/
def optOr : Option String → Option String → Option String
  | some v, _ => some v
  | none, b => b

/-- A concrete oracle with every external call in its simplest successful
shape (the zone database lookup failing, no config fragments); used to
instantiate theorems at concrete inputs. -/
def wBase : W :=
  { setenvOk := true, setenvErrMsg := "Ese", nowZone := ("UTC", 0),
    loadLocation := fun _ => none, zoneInNow := fun _ => ("WIB", 25200),
    homeDir := "/home/u", exePath := some "/opt/app/bin/x",
    filepathDir := fun _ => "/opt/app/bin",
    embedGlob := fun _ => some [], embedRead := fun _ => none,
    embedEnvFile := some [], embedEnvErrMsg := "Eembed",
    diskGlob := fun _ => some [], diskStat := fun _ => false,
    diskEnvFile := some [], diskRead := fun _ => none,
    parse := fun _ => none, unmarshalErr := fun _ => none,
    defaultsErrMsg := none }

/-- `wBase` with a missing embedded env file (the embedded env load
fails). -/
def wEnvFail : W := { wBase with embedEnvFile := none }

/-- `wBase` with a failing `os.Setenv`. -/
def wSetenvFail : W := { wBase with setenvOk := false }

/-- `wBase` with `os.Executable` failing. -/
def wHome : W := { wBase with exePath := none }

/-- A run in which `TZ` resolves to a loadable zone whose observed offset
equals the base offset: the reconciliation's "keep" branch. -/
def wTZeq : W :=
  { wBase with
      nowZone := ("WIB", 25200)
      loadLocation := fun s => if s = "Asia/Jakarta" then some 1 else none
      zoneInNow := fun _ => ("WIB", 25200) }

/-- An environment with `TZ` pre-set. -/
def envJakarta : KV := [("TZ", "Asia/Jakarta")]

/-- A run with one embedded fragment (`db.port=5432`) and one on-disk
fragment (`db.port=5433`). -/
def wMerge : W :=
  { wBase with
      embedGlob := fun _ => some ["e.json"]
      embedRead := fun _ => some "E"
      diskGlob := fun _ => some ["d.json"]
      diskStat := fun _ => true
      diskRead := fun _ => some "D"
      parse := fun c =>
        if c = "E" then some [("db.port", "5432")]
        else if c = "D" then some [("db.port", "5433")] else none }

/-- An environment with the matching override variable set. -/
def envC1 : KV := [("APP_DB_PORT", "5434")]

/-- State after the timezone step of the run in which the embedded env
file is missing. -/
def sAfterTZ : MState := (initTZStep wEnvFail "UTC" (initState [] 0)).1

/-- State after the (failing) embedded-env step of that run. -/
def sAfterEnv : MState := (embedEnvStep wEnvFail sAfterTZ).1

theorem kvLookup_append (a b : KV) (k : String) :
    kvLookup (a ++ b) k = optOr (kvLookup a k) (kvLookup b k) := by
  induction a with
  | nil => simp [kvLookup, optOr]
  | cons p rest ih =>
    by_cases h : p.1 = k <;> simp [kvLookup, h, ih, optOr]

theorem mergeLayer_eq (l st : KV) : mergeLayer st l = l.reverse ++ st := by
  induction l generalizing st with
  | nil => simp [mergeLayer]
  | cons p rest ih =>
    show mergeLayer (p :: st) rest = _
    rw [ih]
    simp

theorem kvLookup_mergeLayer (st l : KV) (k : String) :
    kvLookup (mergeLayer st l) k = optOr (lookupLast l k) (kvLookup st k) := by
  rw [mergeLayer_eq, kvLookup_append]; rfl

theorem kvLookup_kvInsert_self (env : KV) (k v : String) :
    kvLookup (kvInsert env k v) k = some v := by
  induction env with
  | nil => simp [kvInsert, kvLookup]
  | cons p rest ih =>
    by_cases h : p.1 = k <;> simp [kvInsert, kvLookup, h, ih]

theorem getenvD_kvInsert_self (env : KV) (k v : String) :
    getenvD (kvInsert env k v) k = v := by
  simp [getenvD, kvLookup_kvInsert_self]

theorem waterfall_append_ok (fs gs : List Step) (s s1 : MState)
    (h : waterfall fs s = (s1, none)) :
    waterfall (fs ++ gs) s = waterfall gs s1 := by
  induction fs generalizing s with
  | nil =>
    simp [waterfall] at h
    simp [waterfall, h]
  | cons f fs ih =>
    rcases hf : f s with ⟨s2, e2⟩
    cases e2 with
    | none =>
      have h2 : waterfall fs s2 = (s1, none) := by
        simpa [waterfall, hf] using h
      simpa [waterfall, hf] using ih s2 h2
    | some e =>
      exfalso
      simp [waterfall, hf] at h

theorem waterfall_cons_err (f : Step) (fs : List Step) (s s2 : MState)
    (e : String) (h : f s = (s2, some e)) :
    waterfall (f :: fs) s = (s2, some e) := by
  simp [waterfall, h]

/-- C4: timezone load fallback — whenever loading a location for the
working zone name fails (and the function reaches the load, i.e. `TZ` was
already set or the setenv write succeeded), `initTimeZone` returns success
(no error) with the zone name captured from the current wall clock, the
system's current local location, and the captured base offset; a missing
zone database entry never aborts startup. -/
theorem timezone_fallback (o : W) (env : KV) (local0 : Nat) (tzArgs : String)
    (hreach : getenvD env TZName ≠ "" ∨ o.setenvOk = true)
    (hfail : o.loadLocation
      (if getenvD env TZName = "" then tzArgs else getenvD env TZName) = none) :
    (initTimeZone o env local0 tzArgs).err = none ∧
    (initTimeZone o env local0 tzArgs).tz = o.nowZone.1 ∧
    (initTimeZone o env local0 tzArgs).loc = some local0 ∧
    (initTimeZone o env local0 tzArgs).offset = o.nowZone.2 := by
  unfold initTimeZone tzCore
  by_cases h : getenvD env TZName = ""
  · have hok : o.setenvOk = true := by
      rcases hreach with h1 | h1
      · exact absurd h h1
      · exact h1
    rw [if_pos h] at hfail
    simp [h, hok, getenvD_kvInsert_self, hfail]
  · rw [if_neg h] at hfail
    simp [h, hfail]

/-- Witness for `timezone_fallback`: under `wBase` every zone load fails,
`TZ` is unset and setenv succeeds, so resolution falls back to the wall
clock values with no error. -/
theorem timezone_fallback_witness :
    (initTimeZone wBase [] 0 "Nope/Zone").err = none ∧
    (initTimeZone wBase [] 0 "Nope/Zone").tz = wBase.nowZone.1 ∧
    (initTimeZone wBase [] 0 "Nope/Zone").loc = some 0 ∧
    (initTimeZone wBase [] 0 "Nope/Zone").offset = wBase.nowZone.2 :=
  timezone_fallback wBase [] 0 "Nope/Zone" (Or.inr rfl) rfl

/-- C5 counterexample: with `TZ` pre-set to `"Asia/Jakarta"`, the wall
clock reporting `("WIB", 25200)`, and the loaded location observing the
same offset `25200`, the load succeeds, the localized offset equals the
base offset, and yet the returned zone name is the working name
`"Asia/Jakarta"`, not the base (wall-clock-captured) zone name `"WIB"` the
claim requires. -/
theorem timezone_reconciliation_cex :
    wTZeq.loadLocation (getenvD envJakarta TZName) = some 1 ∧
    (wTZeq.zoneInNow 1).2 = wTZeq.nowZone.2 ∧
    (initTimeZone wTZeq envJakarta 0 "").tz ≠ wTZeq.nowZone.1 := by
  refine ⟨rfl, rfl, ?_⟩
  decide

/-- C5 (amended): whenever loading the location for the working zone name
succeeds, if the offset observed in that location differs from the base
offset then `initTimeZone` sets the process-wide default location to the
loaded location and returns the localized zone name and localized offset;
otherwise it returns the working zone name (the `TZ` value in effect — the
pre-existing variable or the requested zone, not the wall-clock-captured
base name) and the base offset, leaving the process default location
unchanged. -/
theorem timezone_reconciliation (o : W) (env : KV) (local0 : Nat)
    (tzArgs : String) (l : Nat)
    (hreach : getenvD env TZName ≠ "" ∨ o.setenvOk = true)
    (hload : o.loadLocation
      (if getenvD env TZName = "" then tzArgs else getenvD env TZName) = some l) :
    ((o.zoneInNow l).2 ≠ o.nowZone.2 →
      (initTimeZone o env local0 tzArgs).localOut = l ∧
      (initTimeZone o env local0 tzArgs).tz = (o.zoneInNow l).1 ∧
      (initTimeZone o env local0 tzArgs).offset = (o.zoneInNow l).2 ∧
      (initTimeZone o env local0 tzArgs).loc = some l) ∧
    ((o.zoneInNow l).2 = o.nowZone.2 →
      (initTimeZone o env local0 tzArgs).tz =
        (if getenvD env TZName = "" then tzArgs else getenvD env TZName) ∧
      (initTimeZone o env local0 tzArgs).offset = o.nowZone.2 ∧
      (initTimeZone o env local0 tzArgs).localOut = local0 ∧
      (initTimeZone o env local0 tzArgs).loc = some l) := by
  unfold initTimeZone tzCore
  by_cases h : getenvD env TZName = ""
  · have hok : o.setenvOk = true := by
      rcases hreach with h1 | h1
      · exact absurd h h1
      · exact h1
    rw [if_pos h] at hload
    constructor
    · intro hne
      simp [h, hok, getenvD_kvInsert_self, hload, Ne.symm hne]
    · intro heq
      simp [h, hok, getenvD_kvInsert_self, hload, heq]
  · rw [if_neg h] at hload
    constructor
    · intro hne
      simp [h, hload, Ne.symm hne]
    · intro heq
      simp [h, hload, heq]

/-- Witness for `timezone_reconciliation`: the equal-offset branch under
`wTZeq` keeps the working name `"Asia/Jakarta"` and the base offset and
does not move the default location. -/
theorem timezone_reconciliation_witness :
    (initTimeZone wTZeq envJakarta 0 "").tz =
      (if getenvD envJakarta TZName = "" then ""
       else getenvD envJakarta TZName) ∧
    (initTimeZone wTZeq envJakarta 0 "").offset = wTZeq.nowZone.2 ∧
    (initTimeZone wTZeq envJakarta 0 "").localOut = 0 ∧
    (initTimeZone wTZeq envJakarta 0 "").loc = some 1 :=
  (timezone_reconciliation wTZeq envJakarta 0 "" 1
    (Or.inl (by decide)) (by decide)).2 rfl

/-- C6: TZ non-clobbering — when `TZ` is already set to a non-empty value,
`initTimeZone` never writes to the environment (it is returned unchanged),
and the returned offset reflects the pre-existing value's effective
offset: the offset observed in the location loaded from it when the load
succeeds, the wall-clock base offset when it fails. -/
theorem tz_non_clobbering (o : W) (env : KV) (local0 : Nat) (tzArgs : String)
    (hset : getenvD env TZName ≠ "") :
    (initTimeZone o env local0 tzArgs).envOut = env ∧
    (∀ l, o.loadLocation (getenvD env TZName) = some l →
      (initTimeZone o env local0 tzArgs).offset = (o.zoneInNow l).2) ∧
    (o.loadLocation (getenvD env TZName) = none →
      (initTimeZone o env local0 tzArgs).offset = o.nowZone.2) := by
  unfold initTimeZone tzCore
  refine ⟨?_, ?_, ?_⟩
  · cases hl : o.loadLocation (getenvD env TZName) with
    | none => simp [hset, hl]
    | some l =>
      simp only [hset, ite_false, if_neg hset, hl]
      split
      · rfl
      · rfl
  · intro l hl
    simp only [hset, ite_false, if_neg hset, hl]
    split
    · rfl
    · rename_i hcond
      simp only [ne_eq, not_not] at hcond
      exact hcond
  · intro hl
    simp [hset, hl]

/-- Witness for `tz_non_clobbering`: with `TZ` pre-set under `wTZeq` the
environment is unchanged and the offset is the one observed in the loaded
location. -/
theorem tz_non_clobbering_witness :
    (initTimeZone wTZeq envJakarta 0 "X").envOut = envJakarta ∧
    (initTimeZone wTZeq envJakarta 0 "X").offset = (wTZeq.zoneInNow 1).2 :=
  ⟨(tz_non_clobbering wTZeq envJakarta 0 "X" (by decide)).1,
   (tz_non_clobbering wTZeq envJakarta 0 "X" (by decide)).2.1 1 rfl⟩

/-- C1: layered-merge precedence — with a key defined in an embedded
fragment, an on-disk fragment, and (possibly) the matching environment
variable (upper-cased app-name underscore-joined, `.` mapped to `_`), the
value bound after merging the embedded layer and then the on-disk layer
into the shared store is the environment variable's value when that
variable is set non-empty, and the on-disk fragment's value when it is
unset. -/
theorem merge_precedence (o : W) (env st0 : KV)
    (appName k ve vd venv : String) (epat dpat ef df ec dc : String)
    (ekvs dkvs : KV)
    (heg : o.embedGlob epat = some [ef]) (her : o.embedRead ef = some ec)
    (hep : o.parse ec = some ekvs) (hek : lookupLast ekvs k = some ve)
    (hdg : o.diskGlob dpat = some [df]) (hds : o.diskStat df = true)
    (hdr : o.diskRead df = some dc) (hdp : o.parse dc = some dkvs)
    (hdk : lookupLast dkvs k = some vd) :
    (getenvD env (envKeyName appName k) = venv → venv ≠ "" →
      boundValue env appName
        (fromFilesStore o [dpat] (fromFSStore o [epat] st0)) k = some venv) ∧
    (getenvD env (envKeyName appName k) = "" →
      boundValue env appName
        (fromFilesStore o [dpat] (fromFSStore o [epat] st0)) k = some vd) := by
  have hstore :
      kvLookup (fromFilesStore o [dpat] (fromFSStore o [epat] st0)) k =
        some vd := by
    have h1 : fromFSStore o [epat] st0 = mergeLayer st0 ekvs := by
      simp [fromFSStore, fromFSMatches, heg, her, hep]
    have h2 : fromFilesStore o [dpat] (mergeLayer st0 ekvs) =
        mergeLayer (mergeLayer st0 ekvs) dkvs := by
      simp [fromFilesStore, fromFilesMatches, hdg, hds, hdr, hdp]
    rw [h1, h2, kvLookup_mergeLayer, hdk]
    rfl
  constructor
  · intro hev hne
    simp [boundValue, hev, hne]
  · intro hev
    simp [boundValue, hev, hstore]

/-- Witness for `merge_precedence`: under `wMerge` with `db.port` set to
`5432` by the embedded fragment and `5433` by the on-disk fragment, the
bound value is `5434` when `APP_DB_PORT=5434` is in the environment and
`5433` when the environment is empty. -/
theorem merge_precedence_witness :
    boundValue envC1 "app"
      (fromFilesStore wMerge ["d"] (fromFSStore wMerge ["e"] []))
      "db.port" = some "5434" ∧
    boundValue [] "app"
      (fromFilesStore wMerge ["d"] (fromFSStore wMerge ["e"] []))
      "db.port" = some "5433" :=
  ⟨(merge_precedence wMerge envC1 [] "app" "db.port" "5432" "5433" "5434"
      "e" "d" "e.json" "d.json" "E" "D"
      [("db.port", "5432")] [("db.port", "5433")]
      rfl rfl rfl rfl rfl rfl rfl rfl rfl).1 (by decide) (by decide),
   (merge_precedence wMerge [] [] "app" "db.port" "5432" "5433" "5434"
      "e" "d" "e.json" "d.json" "E" "D"
      [("db.port", "5432")] [("db.port", "5433")]
      rfl rfl rfl rfl rfl rfl rfl rfl rfl).2 (by decide)⟩

/-- C3: merge error swallowing — `fromFS` and `fromFiles` return a
non-`nil` error exactly when the terminal unmarshal of the accumulated
store fails, and an individual glob, read, stat, or parse failure merely
skips the affected pattern or file without contributing an error. -/
theorem merge_error_swallowing (o : W) (patterns : List String) (st : KV)
    (p m c : String) (ps ms : List String) :
    ((fromFS o patterns st).2 ≠ none ↔
      o.unmarshalErr (fromFSStore o patterns st) ≠ none) ∧
    ((fromFiles o patterns st).2 ≠ none ↔
      o.unmarshalErr (fromFilesStore o patterns st) ≠ none) ∧
    (o.embedGlob p = none →
      fromFSStore o (p :: ps) st = fromFSStore o ps st) ∧
    (o.embedRead m = none →
      fromFSMatches o (m :: ms) st = fromFSMatches o ms st) ∧
    (o.embedRead m = some c → o.parse c = none →
      fromFSMatches o (m :: ms) st = fromFSMatches o ms st) ∧
    (o.diskGlob p = none →
      fromFilesStore o (p :: ps) st = fromFilesStore o ps st) ∧
    (o.diskStat m = false →
      fromFilesMatches o (m :: ms) st = fromFilesMatches o ms st) ∧
    (o.diskStat m = true → o.diskRead m = none →
      fromFilesMatches o (m :: ms) st = fromFilesMatches o ms st) ∧
    (o.diskStat m = true → o.diskRead m = some c → o.parse c = none →
      fromFilesMatches o (m :: ms) st = fromFilesMatches o ms st) := by
  refine ⟨Iff.rfl, Iff.rfl, ?_, ?_, ?_, ?_, ?_, ?_, ?_⟩
  · intro h; simp [fromFSStore, h]
  · intro h; simp [fromFSMatches, h]
  · intro h1 h2; simp [fromFSMatches, h1, h2]
  · intro h; simp [fromFilesStore, h]
  · intro h; simp [fromFilesMatches, h]
  · intro h1 h2; simp [fromFilesMatches, h1, h2]
  · intro h1 h2 h3; simp [fromFilesMatches, h1, h2, h3]

/-- Witness for `merge_error_swallowing`: under `wBase` (whose unmarshal
succeeds) the merge returns no error, and a failing read leaves the match
loop's result unchanged. -/
theorem merge_error_swallowing_witness :
    (fromFS wBase ["p"] []).2 = none ∧
    fromFSMatches wBase ["m"] [] = fromFSMatches wBase [] [] := by
  constructor
  · by_contra hne
    exact (merge_error_swallowing wBase ["p"] [] "p" "m" "c" [] []).1.mp hne rfl
  · exact (merge_error_swallowing wBase ["p"] [] "p" "m" "c" [] []).2.2.2.1 rfl

/-- C2: pipeline fail-fast sequencing — `NewConfig`'s step list is exactly
the fixed order (timezone, embedded env, regular env, embedded config
merge, on-disk config merge, defaulting); and whenever the steps before
some step succeed and that step returns an error, the waterfall stops
there (no later step runs, the final state is the erroring step's output
state) and `NewConfig` returns that first error unchanged. -/
theorem pipeline_fail_fast (o : W) (env0 : KV) (local0 destRef : Nat)
    (cps : List String) (appName tzArgs : String)
    (fs gs : List Step) (f : Step) (s1 s2 : MState) (e : String)
    (hsplit : stepList o cps tzArgs = fs ++ f :: gs)
    (hok : waterfall fs (initState env0 local0) = (s1, none))
    (herr : f s1 = (s2, some e)) :
    stepList o cps tzArgs =
      [initTZStep o tzArgs, embedEnvStep o, regularEnvStep o,
       embedCfgStep o cps, diskCfgStep o cps, defaultsStep o] ∧
    waterfall (stepList o cps tzArgs) (initState env0 local0) =
      (s2, some e) ∧
    (newConfigRun o env0 local0 cps appName tzArgs destRef).2 = some e := by
  have h2 : waterfall (stepList o cps tzArgs) (initState env0 local0) =
      (s2, some e) := by
    rw [hsplit, waterfall_append_ok fs (f :: gs) _ s1 hok]
    exact waterfall_cons_err f gs s1 s2 e herr
  exact ⟨rfl, h2, by simp [newConfigRun, h2]⟩

/-- Witness for `pipeline_fail_fast`: under `wEnvFail` the timezone step
succeeds, the embedded-env step fails with `"Eembed"`, and `NewConfig`
surfaces exactly that error. -/
theorem pipeline_fail_fast_witness :
    (newConfigRun wEnvFail [] 0 [] "app" "UTC" 7).2 = some "Eembed" :=
  (pipeline_fail_fast wEnvFail [] 0 7 [] "app" "UTC"
    [initTZStep wEnvFail "UTC"]
    [regularEnvStep wEnvFail, embedCfgStep wEnvFail [],
     diskCfgStep wEnvFail [], defaultsStep wEnvFail]
    (embedEnvStep wEnvFail) sAfterTZ sAfterEnv "Eembed"
    rfl (by decide) (by decide)).2.2

/-- C7: env loading order and fatality — the embedded env load is the step
right after timezone resolution and strictly before the on-disk env step;
when the timezone step succeeds and the embedded env file is missing, the
whole pipeline stops at the embedded-env step (its state is final) and
`NewConfig` fails with the embedded-env error; and when `Stat` of
`workDirPath ++ "/params/.env"` fails, the on-disk env step succeeds with
no error and no state change. -/
theorem env_loading_order (o : W) (env0 : KV) (local0 destRef : Nat)
    (cps : List String) (appName tzArgs : String)
    (htz : (initTimeZone o env0 local0 tzArgs).err = none)
    (hmiss : o.embedEnvFile = none) :
    stepList o cps tzArgs =
      [initTZStep o tzArgs, embedEnvStep o, regularEnvStep o,
       embedCfgStep o cps, diskCfgStep o cps, defaultsStep o] ∧
    waterfall (stepList o cps tzArgs) (initState env0 local0) =
      ((embedEnvStep o ((initTZStep o tzArgs) (initState env0 local0)).1).1,
        some o.embedEnvErrMsg) ∧
    (newConfigRun o env0 local0 cps appName tzArgs destRef).2 =
      some o.embedEnvErrMsg ∧
    (∀ s : MState,
      o.diskStat (s.rd.workDirPath ++ PathRegularParamsEnv) = false →
      regularEnvStep o s = (s, none)) := by
  have h1 : initTZStep o tzArgs (initState env0 local0) =
      ((initTZStep o tzArgs (initState env0 local0)).1, none) := by
    cases hE : (initTimeZone o env0 local0 tzArgs).err with
    | none => simp [initTZStep, initState, hE]
    | some e => rw [htz] at hE; cases hE
  have h0 : waterfall [initTZStep o tzArgs] (initState env0 local0) =
      ((initTZStep o tzArgs (initState env0 local0)).1, none) := by
    unfold waterfall
    rw [h1]
    rfl
  have h2 : embedEnvStep o ((initTZStep o tzArgs (initState env0 local0)).1) =
      ((embedEnvStep o ((initTZStep o tzArgs (initState env0 local0)).1)).1,
        some o.embedEnvErrMsg) := by
    conv_lhs => rw [embedEnvStep]
    conv_rhs => rw [embedEnvStep]
    rw [hmiss]
  have hw : waterfall (stepList o cps tzArgs) (initState env0 local0) =
      ((embedEnvStep o ((initTZStep o tzArgs) (initState env0 local0)).1).1,
        some o.embedEnvErrMsg) := by
    rw [show stepList o cps tzArgs =
        [initTZStep o tzArgs] ++ (embedEnvStep o :: [regularEnvStep o,
          embedCfgStep o cps, diskCfgStep o cps, defaultsStep o]) from rfl,
      waterfall_append_ok _ _ _ _ h0]
    exact waterfall_cons_err _ _ _ _ _ h2
  refine ⟨rfl, hw, by simp [newConfigRun, hw], ?_⟩
  intro s hstat
  simp [regularEnvStep, hstat]

/-- Witness for `env_loading_order`: under `wEnvFail` with an empty
initial environment, `NewConfig` fails with `"Eembed"`, and the on-disk
env step is a no-op on a state whose stat fails. -/
theorem env_loading_order_witness :
    (newConfigRun wEnvFail [] 0 [] "zz" "UTC" 9).2 = some "Eembed" ∧
    regularEnvStep wEnvFail sAfterTZ = (sAfterTZ, none) :=
  ⟨(env_loading_order wEnvFail [] 0 9 [] "zz" "UTC"
      (by decide) rfl).2.2.1,
   (env_loading_order wEnvFail [] 0 9 [] "zz" "UTC"
      (by decide) rfl).2.2.2 sAfterTZ rfl⟩

/-- C8: defaulting law — the defaulting step is the last entry of the
fixed step list, after both merge steps; a destination field to which no
layer contributed a binding receives its declared default, and a field
with a layer-provided value keeps it, even when the default differs. -/
theorem defaulting_law (o : W) (env st : KV) (appName k dflt v : String)
    (cps : List String) (tzArgs : String) :
    (boundValue env appName st k = none →
      finalFieldValue env appName st k dflt = dflt) ∧
    (boundValue env appName st k = some v →
      finalFieldValue env appName st k dflt = v) ∧
    stepList o cps tzArgs =
      [initTZStep o tzArgs, embedEnvStep o, regularEnvStep o,
       embedCfgStep o cps, diskCfgStep o cps, defaultsStep o] := by
  refine ⟨fun h => ?_, fun h => ?_, rfl⟩
  · simp [finalFieldValue, defaultsSetField, h]
  · simp [finalFieldValue, defaultsSetField, h]

/-- Witness for `defaulting_law`: an unbound field gets the default `"D"`;
a field bound to `"x"` keeps it although the default differs. -/
theorem defaulting_law_witness :
    finalFieldValue [] "app" [] "k" "D" = "D" ∧
    finalFieldValue [] "app" [("k", "x")] "k" "D" = "x" :=
  ⟨(defaulting_law wBase [] [] "app" "k" "D" "x" [] "UTC").1 (by decide),
   (defaulting_law wBase [] [("k", "x")] "app" "k" "D" "x" [] "UTC").2.1
     (by decide)⟩

/-- C9: workdir resolution totality — `initWorkDirPath` is a total
function with no error result; it returns the directory of the executable
whenever `os.Executable` succeeds, and the user's home directory
otherwise. -/
theorem workdir_total (o : W) :
    (∀ ex, o.exePath = some ex → initWorkDirPath o = o.filepathDir ex) ∧
    (o.exePath = none → initWorkDirPath o = o.homeDir) := by
  constructor
  · intro ex h; simp [initWorkDirPath, h]
  · intro h; simp [initWorkDirPath, h]

/-- Witness for `workdir_total`: the executable branch under `wBase` and
the home-directory branch under `wHome`. -/
theorem workdir_total_witness :
    initWorkDirPath wBase = wBase.filepathDir "/opt/app/bin/x" ∧
    initWorkDirPath wHome = wHome.homeDir :=
  ⟨(workdir_total wBase).1 "/opt/app/bin/x" rfl, (workdir_total wHome).2 rfl⟩

/-- C10: handle construction on failure — `NewConfig` always returns a
(totally constructed) handle whose `Data` field holds the caller-supplied
destination reference and whose `appName` equals the supplied name, even
when it also returns an error; and when the very first step (timezone
resolution) errors, the fields only later steps would set are still at
their zero values. -/
theorem handle_on_failure (o : W) (env0 : KV) (local0 destRef : Nat)
    (cps : List String) (appName tzArgs : String) :
    (newConfigRun o env0 local0 cps appName tzArgs destRef).1.Data =
      some destRef ∧
    (newConfigRun o env0 local0 cps appName tzArgs destRef).1.appName =
      appName ∧
    ((initTimeZone o env0 local0 tzArgs).err ≠ none →
      (newConfigRun o env0 local0 cps appName tzArgs destRef).1.timeLocation
        = none ∧
      (newConfigRun o env0 local0 cps appName tzArgs destRef).1.workDirPath
        = "" ∧
      (newConfigRun o env0 local0 cps appName tzArgs destRef).1.timeZone
        = "" ∧
      (newConfigRun o env0 local0 cps appName tzArgs destRef).1.timeOffset
        = 0) := by
  refine ⟨rfl, rfl, fun hne => ?_⟩
  obtain ⟨e, he⟩ := Option.ne_none_iff_exists'.mp hne
  have h1 : initTZStep o tzArgs (initState env0 local0) =
      ({ initState env0 local0 with
          env := (initTimeZone o env0 local0 tzArgs).envOut
          localLoc := (initTimeZone o env0 local0 tzArgs).localOut },
        some e) := by
    simp [initTZStep, initState, he]
  have hw : waterfall (stepList o cps tzArgs) (initState env0 local0) =
      ({ initState env0 local0 with
          env := (initTimeZone o env0 local0 tzArgs).envOut
          localLoc := (initTimeZone o env0 local0 tzArgs).localOut },
        some e) :=
    waterfall_cons_err _ _ _ _ _ h1
  have hrd : (waterfall (stepList o cps tzArgs) (initState env0 local0)).1.rd
      = Config.zero := by
    rw [hw]
    rfl
  refine ⟨?_, ?_, ?_, ?_⟩ <;> simp [newConfigRun, hrd, Config.zero]

/-- Witness for `handle_on_failure`: under `wSetenvFail` with `TZ` unset,
the setenv write fails in the first step, yet the handle carries the
destination reference and app name while the timezone/workdir fields stay
zero. -/
theorem handle_on_failure_witness :
    (newConfigRun wSetenvFail [] 0 [] "app" "UTC" 7).1.Data = some 7 ∧
    (newConfigRun wSetenvFail [] 0 [] "app" "UTC" 7).1.appName = "app" ∧
    (newConfigRun wSetenvFail [] 0 [] "app" "UTC" 7).1.timeLocation = none ∧
    (newConfigRun wSetenvFail [] 0 [] "app" "UTC" 7).1.workDirPath = "" ∧
    (newConfigRun wSetenvFail [] 0 [] "app" "UTC" 7).1.timeZone = "" ∧
    (newConfigRun wSetenvFail [] 0 [] "app" "UTC" 7).1.timeOffset = 0 := by
  have h := handle_on_failure wSetenvFail [] 0 7 [] "app" "UTC"
  have h3 := h.2.2 (by decide)
  exact ⟨h.1, h.2.1, h3.1, h3.2.1, h3.2.2.1, h3.2.2.2⟩

end GooprekConfig
